import Mathlib

/-!
Verification development for the `skiwetter` scraper and dashboard.

The Python source (`src/scraper/scraper.py`, `src/web/main.py`) is shallowly
embedded below: strings are `String`, table cells are `Option String`
(a missing cell is `none`), the mutable record dictionary is an
insertion-ordered association list (`Dict`), Python's substring test
`sub in s` is `pyContains s sub`, and Python truthiness of a cell is
`truthy`.  Fallible Python operations (dictionary reads, list indexing,
`assert`) get a second embedding into `Except String` so that
exception-freedom can be stated.
-/

set_option maxRecDepth 4000

namespace Skiwetter

/-- Splitting worker over character lists: leftmost non-overlapping occurrences
of `sep`, Python `str.split(sep)` semantics.  `fuel` only forces structural
termination; `fuel = l.length` always suffices. -/
def splitGo (sep : List Char) : Nat → List Char → List Char → List (List Char)
  | _, acc, [] => [acc.reverse]
  | 0, acc, l => [acc.reverse ++ l]
  | fuel + 1, acc, c :: rest =>
    if sep.isPrefixOf (c :: rest) then
      acc.reverse :: splitGo sep fuel [] ((c :: rest).drop sep.length)
    else
      splitGo sep fuel (c :: acc) rest

/-- Python `s.split(sep)` for a given separator (the source never splits on the
default whitespace separator). -/
def pySplit (s sep : String) : List String :=
  if sep.isEmpty then [s]
  else (splitGo sep.data s.data.length [] s.data).map String.mk

/-- Python `s.join(parts)` used to express `str.replace`. -/
def joinWith (sep : String) : List String → String
  | [] => ""
  | [x] => x
  | x :: y :: xs => x ++ sep ++ joinWith sep (y :: xs)

/-- Python `s.replace(old, new)`: replaces every occurrence; for a non-empty
`old` this is `new.join(s.split(old))`. -/
def pyReplace (s old new : String) : String :=
  if old.isEmpty then s else joinWith new (pySplit s old)

/-- Python `s.strip()`: trims whitespace from both ends. -/
def pyStrip (s : String) : String :=
  String.mk (((s.data.dropWhile Char.isWhitespace).reverse.dropWhile Char.isWhitespace).reverse)

/-- Python substring containment `sub in s`: for a non-empty needle, `s.split(sub)`
has at least two parts exactly when `sub` occurs in `s`; `"" in s` is always true. -/
def pyContains (s sub : String) : Bool :=
  sub.isEmpty || decide (1 < (pySplit s sub).length)

/-- Python `s.startswith(pre)`. -/
def pyStartsWith (s pre : String) : Bool :=
  pre.data.isPrefixOf s.data

/-- Python truthiness of an optional table cell: `None` and `""` are falsy. -/
def truthy : Option String → Bool
  | none => false
  | some s => !s.isEmpty

/-- The weather record: an insertion-ordered string-keyed dictionary,
modelling Python's `dict[str, str]`. -/
abbrev Dict := List (String × String)

/-- Dictionary lookup, `data.get(k)` flavour: `none` when the key is absent. -/
def dGet (d : Dict) (k : String) : Option String :=
  (d.find? (fun p => p.1 == k)).map (fun p => p.2)

/-- Dictionary assignment `data[k] = v`: updates the binding in place when the
key is present (keeping insertion order), appends otherwise — Python dict semantics. -/
def dSet (d : Dict) (k v : String) : Dict :=
  match d with
  | [] => [(k, v)]
  | p :: rest => if p.1 == k then (k, v) :: rest else p :: dSet rest k v

/-- A row of the extracted PDF table: cells may be absent (`None`). -/
abbrev Row := List (Option String)

/-- The Python guard `idx + 1 < len(row) and row[idx + 1]`. -/
def nextTruthy (row : Row) (idx : Nat) : Bool :=
  decide (idx + 1 < row.length) && truthy (row.getD (idx + 1) none)

/-- The neighbour cell's text `row[idx + 1]` after the guard (the `assert val is
not None` in the source only narrows the type). -/
def nextVal (row : Row) (idx : Nat) : String :=
  (row.getD (idx + 1) none).getD ""

/-- From `_extract_from_cell`, the `"TAGES-NEWS"` block:
`data["date"] = cell.replace("TAGES-NEWS - ", "").strip()`. -/
def dateBlock (cell : String) (data : Dict) : Dict :=
  if pyContains cell "TAGES-NEWS" then
    dSet data "date" (pyStrip (pyReplace cell "TAGES-NEWS - " ""))
  else data

/-- The inner loop of the `"Temperatur"` block: for each line followed by
another line, when the line mentions the marker and the next line carries
`"°C"`, store the stripped next line. -/
def tempLinesLoop (lines : List String) (data : Dict) : Dict :=
  lines.enum.foldl (fun data p =>
    if pyContains p.2 "Temperatur" && decide (p.1 + 1 < lines.length) then
      let candidate := pyStrip (lines.getD (p.1 + 1) "")
      if pyContains candidate "°C" then dSet data "temperature" candidate else data
    else data) data

/-- From `_extract_from_cell`, the `"Temperatur"` block: value from the next
cell when it carries `"°C"`; else, while the field still reads `"Unknown"`,
from the line after the marker line inside the same cell. -/
def tempBlock (cell : String) (idx : Nat) (row : Row) (data : Dict) : Dict :=
  if pyContains cell "Temperatur" then
    let data :=
      if nextTruthy row idx then
        let val := nextVal row idx
        if pyContains val "°C" then dSet data "temperature" (pyStrip val) else data
      else data
    if dGet data "temperature" == some "Unknown" then
      tempLinesLoop (pySplit cell "\n") data
    else data
  else data

/-- From `_extract_from_cell`, the `"Uhrzeit:"` block: the text after the
marker when it contains `"Uhr"`, else the next cell. -/
def uhrzeitBlock (cell : String) (idx : Nat) (row : Row) (data : Dict) : Dict :=
  if pyContains cell "Uhrzeit:" then
    if pyContains cell "Uhrzeit:" && pyContains ((pySplit cell "Uhrzeit:").getD 1 "") "Uhr" then
      dSet data "update_time" (pyStrip ((pySplit cell "Uhrzeit:").getD 1 ""))
    else if nextTruthy row idx then
      dSet data "update_time" (pyStrip (nextVal row idx))
    else data
  else data

/-- From `_extract_from_cell`, the `"Wetterlage:"` block: next cell, else the
text after the marker in the same cell. -/
def wetterlageBlock (cell : String) (idx : Nat) (row : Row) (data : Dict) : Dict :=
  if pyContains cell "Wetterlage:" then
    if nextTruthy row idx then
      dSet data "weather_condition" (pyStrip (nextVal row idx))
    else
      let parts := pySplit cell "Wetterlage:"
      if 1 < parts.length then dSet data "weather_condition" (pyStrip (parts.getD 1 "")) else data
  else data

/-- The inner loop of the `"durchschnittliche Schneehöhe"` block. -/
def schneehoeheLinesLoop (lines : List String) (data : Dict) : Dict :=
  lines.enum.foldl (fun data p =>
    if pyContains p.2 "durchschnittliche Schneehöhe" && decide (p.1 + 1 < lines.length) then
      dSet data "snow_depth" (pyStrip (lines.getD (p.1 + 1) ""))
    else data) data

/-- From `_extract_from_cell`, the `"durchschnittliche Schneehöhe"` block:
next cell, else the line after the marker line inside the same cell. -/
def schneehoeheBlock (cell : String) (idx : Nat) (row : Row) (data : Dict) : Dict :=
  if pyContains cell "durchschnittliche Schneehöhe" then
    if nextTruthy row idx then
      dSet data "snow_depth" (pyStrip (nextVal row idx))
    else
      schneehoeheLinesLoop (pySplit cell "\n") data
  else data

/-- From `_extract_from_cell`, the `"Schneeart:"` block: next cell, else the
text after the marker in the same cell. -/
def schneeartBlock (cell : String) (idx : Nat) (row : Row) (data : Dict) : Dict :=
  if pyContains cell "Schneeart:" then
    if nextTruthy row idx then
      dSet data "snow_type" (pyStrip (nextVal row idx))
    else
      let parts := pySplit cell "Schneeart:"
      if 1 < parts.length then dSet data "snow_type" (pyStrip (parts.getD 1 "")) else data
  else data

/-- From `_extract_from_cell`, the `"letzter Schneefall:"` block: next cell,
else the text after the marker in the same cell. -/
def schneefallBlock (cell : String) (idx : Nat) (row : Row) (data : Dict) : Dict :=
  if pyContains cell "letzter Schneefall:" then
    if nextTruthy row idx then
      dSet data "last_snowfall" (pyStrip (nextVal row idx))
    else
      let parts := pySplit cell "letzter Schneefall:"
      if 1 < parts.length then dSet data "last_snowfall" (pyStrip (parts.getD 1 "")) else data
  else data

/-- `SkiWeatherScraper._extract_from_cell`: the seven marker blocks run in
sequence over the shared record. -/
def extract_from_cell (cell : String) (idx : Nat) (row : Row) (data : Dict) : Dict :=
  let data := dateBlock cell data
  let data := tempBlock cell idx row data
  let data := uhrzeitBlock cell idx row data
  let data := wetterlageBlock cell idx row data
  let data := schneehoeheBlock cell idx row data
  let data := schneeartBlock cell idx row data
  schneefallBlock cell idx row data

/-- The seeded record of `extract_weather_data`, all seven fields `"Unknown"`. -/
def initData : Dict :=
  [("date", "Unknown"), ("temperature", "Unknown"), ("weather_condition", "Unknown"),
   ("snow_depth", "Unknown"), ("snow_type", "Unknown"), ("last_snowfall", "Unknown"),
   ("update_time", "Unknown")]

/-- The seven keys of the weather record, in seeding order. -/
def weatherKeys : List String :=
  ["date", "temperature", "weather_condition", "snow_depth", "snow_type",
   "last_snowfall", "update_time"]

/-- A table: rows of optional cells. -/
abbrev Table := List Row

/-- A parsed PDF: a list of pages, each page carrying its extracted tables. -/
structure PDF where
  pages : List (List Table)

/-- `SkiWeatherScraper.extract_weather_data`: fails (returns `None`) on a
document with no pages, otherwise folds `_extract_from_cell` over every
non-falsy cell of every row of every table of the first page, starting from
the seeded record. -/
def extract_weather_data (pdf : PDF) : Option Dict :=
  match pdf.pages with
  | [] => none
  | page :: _ =>
    some (page.foldl (fun data table =>
      table.foldl (fun data row =>
        row.enum.foldl (fun data p =>
          if truthy p.2 then extract_from_cell (p.2.getD "") p.1 row data else data)
          data) data) initData)

/-- An HTML anchor element with an `href` attribute, in document order:
`text` is the raw visible text (`a.text`), `href` the link target. -/
structure Anchor where
  text : String
  href : String

/-- `SkiWeatherScraper.BASE_URL`. -/
def BASE_URL : String := "https://www.altenberg.de"

/-- `SkiWeatherScraper.fetch_pdf_url`, on the anchor list of the fetched page:
first anchor whose stripped text contains `"Tages-News"` and whose href
carries a download marker wins; else the first whose stripped text contains
`"Tages-News"` and a digit; relative hrefs get `BASE_URL` prepended. -/
def fetch_pdf_url : List Anchor → Option String
  | [] => none
  | a :: rest =>
    let text := pyStrip a.text
    let href := a.href
    if pyContains text "Tages-News" &&
        (pyContains href "media%2Fdownload" || pyContains href "media/download" ||
          pyContains href "r/") then
      some (if pyStartsWith href "http" then href else BASE_URL ++ href)
    else if pyContains text "Tages-News" && text.data.any Char.isDigit then
      some (if pyStartsWith href "http" then href else BASE_URL ++ href)
    else fetch_pdf_url rest

/-- `SkiWeatherScraper.save_data`: the JSON object handed to `json.dump` is
the record itself, verbatim — the function adds nothing to it. -/
def save_data (data : Dict) : Dict := data

/-! ### The exception-explicit second embedding of `_extract_from_cell`

Every operation of the Python body that can raise — list indexing,
`assert val is not None`, the dictionary read `data["temperature"]` — is
given its error outcome, so that exception-freedom is a theorem rather than
a modelling assumption. -/

/-- Python list indexing `l[i]`: `IndexError` when out of range. -/
def listGetE {α : Type} (l : List α) (i : Nat) : Except String α :=
  if h : i < l.length then .ok (l.get ⟨i, h⟩) else .error "IndexError"

/-- Python `assert val is not None`: `AssertionError` on `None`. -/
def assertSome : Option String → Except String String
  | some s => .ok s
  | none => .error "AssertionError"

/-- Python dictionary read `data[k]`: `KeyError` when the key is absent. -/
def dGetE (d : Dict) (k : String) : Except String String :=
  match d.find? (fun p => p.1 == k) with
  | some p => .ok p.2
  | none => .error "KeyError"

/-- Exception-explicit form of `tempLinesLoop`. -/
def tempLinesLoopE (lines : List String) (data : Dict) : Except String Dict :=
  lines.enum.foldlM (fun data p =>
    if pyContains p.2 "Temperatur" && decide (p.1 + 1 < lines.length) then do
      let line ← listGetE lines (p.1 + 1)
      let candidate := pyStrip line
      pure (if pyContains candidate "°C" then dSet data "temperature" candidate else data)
    else pure data) data

/-- Exception-explicit form of `tempBlock`; the read `data["temperature"]`
raises `KeyError` on a record missing that key. -/
def tempBlockE (cell : String) (idx : Nat) (row : Row) (data : Dict) : Except String Dict :=
  if pyContains cell "Temperatur" then
    (if nextTruthy row idx then do
        let v ← listGetE row (idx + 1)
        let val ← assertSome v
        pure (if pyContains val "°C" then dSet data "temperature" (pyStrip val) else data)
      else pure data) >>= fun data =>
    dGetE data "temperature" >>= fun t =>
    if t == "Unknown" then tempLinesLoopE (pySplit cell "\n") data else pure data
  else pure data

/-- Exception-explicit form of `uhrzeitBlock`: the inner condition itself
indexes `cell.split("Uhrzeit:")[1]`. -/
def uhrzeitBlockE (cell : String) (idx : Nat) (row : Row) (data : Dict) : Except String Dict :=
  if pyContains cell "Uhrzeit:" then
    (if pyContains cell "Uhrzeit:" then do
        let part ← listGetE (pySplit cell "Uhrzeit:") 1
        pure (pyContains part "Uhr")
      else pure false) >>= fun cond =>
    if cond then do
      let part ← listGetE (pySplit cell "Uhrzeit:") 1
      pure (dSet data "update_time" (pyStrip part))
    else if nextTruthy row idx then do
      let v ← listGetE row (idx + 1)
      let val ← assertSome v
      pure (dSet data "update_time" (pyStrip val))
    else pure data
  else pure data

/-- Exception-explicit form of `wetterlageBlock`. -/
def wetterlageBlockE (cell : String) (idx : Nat) (row : Row) (data : Dict) : Except String Dict :=
  if pyContains cell "Wetterlage:" then
    if nextTruthy row idx then do
      let v ← listGetE row (idx + 1)
      let val ← assertSome v
      pure (dSet data "weather_condition" (pyStrip val))
    else
      let parts := pySplit cell "Wetterlage:"
      if 1 < parts.length then do
        let part ← listGetE parts 1
        pure (dSet data "weather_condition" (pyStrip part))
      else pure data
  else pure data

/-- Exception-explicit form of `schneehoeheLinesLoop`. -/
def schneehoeheLinesLoopE (lines : List String) (data : Dict) : Except String Dict :=
  lines.enum.foldlM (fun data p =>
    if pyContains p.2 "durchschnittliche Schneehöhe" && decide (p.1 + 1 < lines.length) then do
      let line ← listGetE lines (p.1 + 1)
      pure (dSet data "snow_depth" (pyStrip line))
    else pure data) data

/-- Exception-explicit form of `schneehoeheBlock`. -/
def schneehoeheBlockE (cell : String) (idx : Nat) (row : Row) (data : Dict) : Except String Dict :=
  if pyContains cell "durchschnittliche Schneehöhe" then
    if nextTruthy row idx then do
      let v ← listGetE row (idx + 1)
      let val ← assertSome v
      pure (dSet data "snow_depth" (pyStrip val))
    else
      schneehoeheLinesLoopE (pySplit cell "\n") data
  else pure data

/-- Exception-explicit form of `schneeartBlock`. -/
def schneeartBlockE (cell : String) (idx : Nat) (row : Row) (data : Dict) : Except String Dict :=
  if pyContains cell "Schneeart:" then
    if nextTruthy row idx then do
      let v ← listGetE row (idx + 1)
      let val ← assertSome v
      pure (dSet data "snow_type" (pyStrip val))
    else
      let parts := pySplit cell "Schneeart:"
      if 1 < parts.length then do
        let part ← listGetE parts 1
        pure (dSet data "snow_type" (pyStrip part))
      else pure data
  else pure data

/-- Exception-explicit form of `schneefallBlock`. -/
def schneefallBlockE (cell : String) (idx : Nat) (row : Row) (data : Dict) : Except String Dict :=
  if pyContains cell "letzter Schneefall:" then
    if nextTruthy row idx then do
      let v ← listGetE row (idx + 1)
      let val ← assertSome v
      pure (dSet data "last_snowfall" (pyStrip val))
    else
      let parts := pySplit cell "letzter Schneefall:"
      if 1 < parts.length then do
        let part ← listGetE parts 1
        pure (dSet data "last_snowfall" (pyStrip part))
      else pure data
  else pure data

/-- Exception-explicit form of `_extract_from_cell`: the date block contains no
fallible operation, the remaining blocks run in sequence and propagate the
first raised exception. -/
def extract_from_cellE (cell : String) (idx : Nat) (row : Row) (data : Dict) :
    Except String Dict := do
  let data := dateBlock cell data
  let data ← tempBlockE cell idx row data
  let data ← uhrzeitBlockE cell idx row data
  let data ← wetterlageBlockE cell idx row data
  let data ← schneehoeheBlockE cell idx row data
  let data ← schneeartBlockE cell idx row data
  schneefallBlockE cell idx row data

/-! ### The dashboard (`src/web/main.py`) -/

/-- The observable state of the weather-data file when the endpoint runs:
whether `DATA_FILE.exists()`, whether `json.load` succeeds, and the parsed
object when it does. -/
structure FileState where
  fileExists : Bool
  readOk : Bool
  content : Dict

/-- `load_weather_data`: the parsed file when it exists and parses, otherwise
one of the two error-shaped dictionaries. -/
def load_weather_data (st : FileState) : Dict :=
  if st.fileExists then
    if st.readOk then st.content
    else [("error", "Could not load weather data.")]
  else
    [("error", "Weather data not available yet. Please wait for the scraper to run.")]

/-- An HTTP response of the dashboard: JSON body plus status code. -/
structure Response where
  content : Dict
  status_code : Nat

/-- `get_data`, the handler of `GET /api/data`: error-shaped data whose message
does not mention `"scraper"` gets status 404 (file absent) or 500 (file
present); everything else — including the file-absent message, which does
mention `"scraper"` — is returned with the default status 200. -/
def get_data (st : FileState) : Response :=
  let data := load_weather_data st
  if (dGet data "error").isSome && !(pyContains ((dGet data "error").getD "") "scraper") then
    if !st.fileExists then ⟨data, 404⟩ else ⟨data, 500⟩
  else ⟨data, 200⟩

end Skiwetter

namespace Skiwetter

theorem dSet_keys {d : Dict} {k : String} (h : k ∈ d.map Prod.fst) (v : String) :
    (dSet d k v).map Prod.fst = d.map Prod.fst := by
  induction d with
  | nil => simp at h
  | cons p rest ih =>
    by_cases hpk : p.1 = k
    · simp [dSet, hpk]
    · simp only [List.map_cons, List.mem_cons] at h
      rcases h with h | h
      · exact absurd h.symm hpk
      · simp [dSet, hpk, ih h]

theorem mem_keys_dSet {d : Dict} {k k' : String} (h : k' ∈ d.map Prod.fst) (v : String) :
    k' ∈ (dSet d k v).map Prod.fst := by
  induction d with
  | nil => simp at h
  | cons p rest ih =>
    by_cases hpk : p.1 = k
    · simp only [List.map_cons, List.mem_cons] at h
      rcases h with h | h
      · simp [dSet, hpk, h.trans hpk]
      · simp [dSet, hpk, h]
    · simp only [List.map_cons, List.mem_cons] at h
      rcases h with h | h
      · simp [dSet, hpk, h]
      · simp [dSet, hpk, ih h]

theorem dGet_dSet_self (d : Dict) (k v : String) : dGet (dSet d k v) k = some v := by
  induction d with
  | nil => simp [dSet, dGet, List.find?]
  | cons p rest ih =>
    by_cases hpk : p.1 = k
    · simp [dSet, dGet, List.find?, hpk]
    · simp only [dSet, hpk, if_false]
      simp only [dGet, List.find?] at ih ⊢
      have : (p.1 == k) = false := by simpa using hpk
      simp [this, ih]

theorem dGet_dSet_ne (d : Dict) {k k' : String} (h : k' ≠ k) (v : String) :
    dGet (dSet d k v) k' = dGet d k' := by
  induction d with
  | nil =>
    have : (k == k') = false := by simpa using fun e => h e.symm
    simp [dSet, dGet, List.find?, this]
  | cons p rest ih =>
    by_cases hpk : p.1 = k
    · have hk' : (k == k') = false := by simpa using fun e => h e.symm
      have hp' : (p.1 == k') = false := by simpa [hpk] using fun e => h e.symm
      simp [dSet, dGet, List.find?, hpk, hk', hp']
    · by_cases hpk' : p.1 = k'
      · simp [dSet, dGet, List.find?, hpk, hpk', h]
      · have h1 : (p.1 == k') = false := by simpa using hpk'
        have hb : (p.1 == k) = false := by simpa using hpk
        simp only [dSet, hb, Bool.false_eq_true, if_false]
        simp only [dGet, List.find?, h1] at ih ⊢
        simpa [h1] using ih

theorem dGet_of_mem_keys {d : Dict} {k : String} (h : k ∈ d.map Prod.fst) :
    ∃ v, dGet d k = some v := by
  induction d with
  | nil => simp at h
  | cons p rest ih =>
    by_cases hpk : p.1 = k
    · exact ⟨p.2, by simp [dGet, List.find?, hpk]⟩
    · simp only [List.map_cons, List.mem_cons] at h
      rcases h with h | h
      · exact absurd h.symm hpk
      · rcases ih h with ⟨v, hv⟩
        refine ⟨v, ?_⟩
        have h1 : (p.1 == k) = false := by simpa using hpk
        simp only [dGet, List.find?, h1] at hv ⊢
        simpa [h1] using hv

theorem foldl_preserve {α β : Type} {P : α → Prop} (f : α → β → α) (l : List β) (a : α)
    (ha : P a) (hf : ∀ x b, P x → P (f x b)) : P (l.foldl f a) := by
  induction l generalizing a with
  | nil => exact ha
  | cons b t ih => exact ih _ (hf _ _ ha)

theorem foldlM_eq_ok {α β : Type} (f' : α → β → Except String α) (f : α → β → α) (l : List β)
    (a : α) (h : ∀ x b, f' x b = Except.ok (f x b)) :
    l.foldlM f' a = Except.ok (l.foldl f a) := by
  induction l generalizing a with
  | nil => rfl
  | cons b t ih => simp only [List.foldlM, List.foldl, h, ih]; rfl

theorem keys_dSet_weather {d : Dict} (hd : d.map Prod.fst = weatherKeys) {k : String}
    (hk : k ∈ weatherKeys) (v : String) : (dSet d k v).map Prod.fst = weatherKeys := by
  rw [dSet_keys (by rw [hd]; exact hk) v]; exact hd

theorem foldl_const {α β : Type} (f : α → β → α) (l : List β) (a : α)
    (h : ∀ x b, b ∈ l → f x b = x) : l.foldl f a = a := by
  induction l generalizing a with
  | nil => rfl
  | cons b t ih =>
    rw [List.foldl_cons, h a b (by simp)]
    exact ih a (fun x c hc => h x c (by simp [hc]))

end Skiwetter

namespace Skiwetter

theorem dateBlock_keys (cell : String) {d : Dict} (hd : d.map Prod.fst = weatherKeys) :
    (dateBlock cell d).map Prod.fst = weatherKeys := by
  simp only [dateBlock]
  split
  · exact keys_dSet_weather hd (by decide) _
  · exact hd

theorem tempLinesLoop_keys (l : List String) {d : Dict} (hd : d.map Prod.fst = weatherKeys) :
    (tempLinesLoop l d).map Prod.fst = weatherKeys := by
  simp only [tempLinesLoop]
  refine foldl_preserve (P := fun x => List.map Prod.fst x = weatherKeys) _ _ _ hd ?_
  intro x b hx
  dsimp only
  split
  · split
    · exact keys_dSet_weather hx (by decide) _
    · exact hx
  · exact hx

theorem tempBlock_keys (cell : String) (idx : Nat) (row : Row) {d : Dict}
    (hd : d.map Prod.fst = weatherKeys) :
    (tempBlock cell idx row d).map Prod.fst = weatherKeys := by
  simp only [tempBlock]
  split
  · have hA : (if nextTruthy row idx then
        if pyContains (nextVal row idx) "°C" then dSet d "temperature" (pyStrip (nextVal row idx))
        else d
      else d).map Prod.fst = weatherKeys := by
      split
      · split
        · exact keys_dSet_weather hd (by decide) _
        · exact hd
      · exact hd
    have h2 : ∀ D : Dict, D.map Prod.fst = weatherKeys →
        (if (dGet D "temperature" == some "Unknown") = true then
          tempLinesLoop (pySplit cell "\n") D else D).map Prod.fst = weatherKeys := by
      intro D hD
      split
      · exact tempLinesLoop_keys _ hD
      · exact hD
    exact h2 _ hA
  · exact hd

theorem uhrzeitBlock_keys (cell : String) (idx : Nat) (row : Row) {d : Dict}
    (hd : d.map Prod.fst = weatherKeys) :
    (uhrzeitBlock cell idx row d).map Prod.fst = weatherKeys := by
  simp only [uhrzeitBlock]
  split
  · split
    · exact keys_dSet_weather hd (by decide) _
    · split
      · exact keys_dSet_weather hd (by decide) _
      · exact hd
  · exact hd

theorem wetterlageBlock_keys (cell : String) (idx : Nat) (row : Row) {d : Dict}
    (hd : d.map Prod.fst = weatherKeys) :
    (wetterlageBlock cell idx row d).map Prod.fst = weatherKeys := by
  simp only [wetterlageBlock]
  split
  · split
    · exact keys_dSet_weather hd (by decide) _
    · split
      · exact keys_dSet_weather hd (by decide) _
      · exact hd
  · exact hd

theorem schneehoeheLinesLoop_keys (l : List String) {d : Dict}
    (hd : d.map Prod.fst = weatherKeys) :
    (schneehoeheLinesLoop l d).map Prod.fst = weatherKeys := by
  simp only [schneehoeheLinesLoop]
  refine foldl_preserve (P := fun x => List.map Prod.fst x = weatherKeys) _ _ _ hd ?_
  intro x b hx
  dsimp only
  split
  · exact keys_dSet_weather hx (by decide) _
  · exact hx

theorem schneehoeheBlock_keys (cell : String) (idx : Nat) (row : Row) {d : Dict}
    (hd : d.map Prod.fst = weatherKeys) :
    (schneehoeheBlock cell idx row d).map Prod.fst = weatherKeys := by
  simp only [schneehoeheBlock]
  split
  · split
    · exact keys_dSet_weather hd (by decide) _
    · exact schneehoeheLinesLoop_keys _ hd
  · exact hd

theorem schneeartBlock_keys (cell : String) (idx : Nat) (row : Row) {d : Dict}
    (hd : d.map Prod.fst = weatherKeys) :
    (schneeartBlock cell idx row d).map Prod.fst = weatherKeys := by
  simp only [schneeartBlock]
  split
  · split
    · exact keys_dSet_weather hd (by decide) _
    · split
      · exact keys_dSet_weather hd (by decide) _
      · exact hd
  · exact hd

theorem schneefallBlock_keys (cell : String) (idx : Nat) (row : Row) {d : Dict}
    (hd : d.map Prod.fst = weatherKeys) :
    (schneefallBlock cell idx row d).map Prod.fst = weatherKeys := by
  simp only [schneefallBlock]
  split
  · split
    · exact keys_dSet_weather hd (by decide) _
    · split
      · exact keys_dSet_weather hd (by decide) _
      · exact hd
  · exact hd

theorem extract_from_cell_keys (cell : String) (idx : Nat) (row : Row) {d : Dict}
    (hd : d.map Prod.fst = weatherKeys) :
    (extract_from_cell cell idx row d).map Prod.fst = weatherKeys := by
  simp only [extract_from_cell]
  exact schneefallBlock_keys _ _ _ (schneeartBlock_keys _ _ _ (schneehoeheBlock_keys _ _ _
    (wetterlageBlock_keys _ _ _ (uhrzeitBlock_keys _ _ _ (tempBlock_keys _ _ _
      (dateBlock_keys _ hd))))))

/-- Claim C6: for every parsed document with at least one page, whatever the cell
stream holds, the Extraction Orchestrator returns a record with exactly the seven
keys `date`, `temperature`, `weather_condition`, `snow_depth`, `snow_type`,
`last_snowfall`, `update_time` (each a string by construction); no key is ever
missing, and a stream whose tables have zero rows yields the all-`"Unknown"`
seeded record rather than an error. -/
theorem extract_weather_data_keys (pdf : PDF) (page : List Table) (r : List (List Table))
    (h : pdf.pages = page :: r) :
    ∃ d, extract_weather_data pdf = some d ∧ d.map Prod.fst = weatherKeys ∧
      ((∀ t ∈ page, t = ([] : Table)) → d = initData) := by
  simp only [extract_weather_data, h]
  refine ⟨_, rfl, ?_, ?_⟩
  · refine foldl_preserve (P := fun x => List.map Prod.fst x = weatherKeys) _ _ _ (by decide) ?_
    intro x table hx
    refine foldl_preserve (P := fun x => List.map Prod.fst x = weatherKeys) _ _ _ hx ?_
    intro y row hy
    refine foldl_preserve (P := fun x => List.map Prod.fst x = weatherKeys) _ _ _ hy ?_
    intro z p hz
    dsimp only
    split
    · exact extract_from_cell_keys _ _ _ hz
    · exact hz
  · intro he
    refine foldl_const _ _ _ ?_
    intro x t ht
    rw [he t ht]
    rfl

end Skiwetter

namespace Skiwetter

theorem dateBlock_dGet (cell : String) (d : Dict) {k : String} (hk : k ≠ "date") :
    dGet (dateBlock cell d) k = dGet d k := by
  simp only [dateBlock]
  split
  · exact dGet_dSet_ne _ hk _
  · rfl

theorem tempLinesLoop_dGet (l : List String) (d : Dict) {k : String} (hk : k ≠ "temperature") :
    dGet (tempLinesLoop l d) k = dGet d k := by
  simp only [tempLinesLoop]
  refine foldl_preserve (P := fun x => dGet x k = dGet d k) _ _ _ rfl ?_
  intro x b hx
  dsimp only
  split
  · split
    · rw [dGet_dSet_ne _ hk _]; exact hx
    · exact hx
  · exact hx

theorem tempBlock_dGet (cell : String) (idx : Nat) (row : Row) (d : Dict) {k : String}
    (hk : k ≠ "temperature") :
    dGet (tempBlock cell idx row d) k = dGet d k := by
  simp only [tempBlock]
  split
  · have hA : dGet (if nextTruthy row idx then
        if pyContains (nextVal row idx) "°C" then dSet d "temperature" (pyStrip (nextVal row idx))
        else d
      else d) k = dGet d k := by
      split
      · split
        · exact dGet_dSet_ne _ hk _
        · rfl
      · rfl
    have h2 : ∀ D : Dict, dGet D k = dGet d k →
        dGet (if (dGet D "temperature" == some "Unknown") = true then
          tempLinesLoop (pySplit cell "\n") D else D) k = dGet d k := by
      intro D hD
      split
      · rw [tempLinesLoop_dGet _ _ hk]; exact hD
      · exact hD
    exact h2 _ hA
  · rfl

theorem uhrzeitBlock_dGet (cell : String) (idx : Nat) (row : Row) (d : Dict) {k : String}
    (hk : k ≠ "update_time") :
    dGet (uhrzeitBlock cell idx row d) k = dGet d k := by
  simp only [uhrzeitBlock]
  split
  · split
    · exact dGet_dSet_ne _ hk _
    · split
      · exact dGet_dSet_ne _ hk _
      · rfl
  · rfl

theorem wetterlageBlock_dGet (cell : String) (idx : Nat) (row : Row) (d : Dict) {k : String}
    (hk : k ≠ "weather_condition") :
    dGet (wetterlageBlock cell idx row d) k = dGet d k := by
  simp only [wetterlageBlock]
  split
  · split
    · exact dGet_dSet_ne _ hk _
    · split
      · exact dGet_dSet_ne _ hk _
      · rfl
  · rfl

theorem schneehoeheLinesLoop_dGet (l : List String) (d : Dict) {k : String}
    (hk : k ≠ "snow_depth") :
    dGet (schneehoeheLinesLoop l d) k = dGet d k := by
  simp only [schneehoeheLinesLoop]
  refine foldl_preserve (P := fun x => dGet x k = dGet d k) _ _ _ rfl ?_
  intro x b hx
  dsimp only
  split
  · rw [dGet_dSet_ne _ hk _]; exact hx
  · exact hx

theorem schneehoeheBlock_dGet (cell : String) (idx : Nat) (row : Row) (d : Dict) {k : String}
    (hk : k ≠ "snow_depth") :
    dGet (schneehoeheBlock cell idx row d) k = dGet d k := by
  simp only [schneehoeheBlock]
  split
  · split
    · exact dGet_dSet_ne _ hk _
    · exact schneehoeheLinesLoop_dGet _ _ hk
  · rfl

theorem schneeartBlock_dGet (cell : String) (idx : Nat) (row : Row) (d : Dict) {k : String}
    (hk : k ≠ "snow_type") :
    dGet (schneeartBlock cell idx row d) k = dGet d k := by
  simp only [schneeartBlock]
  split
  · split
    · exact dGet_dSet_ne _ hk _
    · split
      · exact dGet_dSet_ne _ hk _
      · rfl
  · rfl

theorem schneefallBlock_dGet (cell : String) (idx : Nat) (row : Row) (d : Dict) {k : String}
    (hk : k ≠ "last_snowfall") :
    dGet (schneefallBlock cell idx row d) k = dGet d k := by
  simp only [schneefallBlock]
  split
  · split
    · exact dGet_dSet_ne _ hk _
    · split
      · exact dGet_dSet_ne _ hk _
      · rfl
  · rfl

theorem isEmpty_false_of_ne {v : String} (h : v ≠ "") : v.isEmpty = false := by
  cases hIE : v.isEmpty
  · rfl
  · exact absurd ((String.isEmpty_iff v).mp hIE) h

theorem nextTruthy_len {row : Row} {idx : Nat} (h : nextTruthy row idx = true) :
    idx + 1 < row.length := by
  simp only [nextTruthy, Bool.and_eq_true, decide_eq_true_eq] at h
  exact h.1

theorem nextTruthy_some {row : Row} {idx : Nat} (h : nextTruthy row idx = true) :
    row.getD (idx + 1) none = some (nextVal row idx) ∧ nextVal row idx ≠ "" := by
  simp only [nextTruthy, Bool.and_eq_true] at h
  rcases h with ⟨-, h2⟩
  cases hx : row.getD (idx + 1) none with
  | none => rw [hx] at h2; simp [truthy] at h2
  | some s =>
    rw [hx] at h2
    simp only [truthy, Bool.not_eq_true'] at h2
    have hval : nextVal row idx = s := by
      simp only [nextVal]
      rw [hx]
      rfl
    have hne : s ≠ "" := by
      intro he
      rw [he, (by decide : ("" : String).isEmpty = true)] at h2
      simp at h2
    rw [hval]
    exact ⟨rfl, hne⟩

theorem nextTruthy_of_getD {row : Row} {idx : Nat} {v : String} (hl : idx + 1 < row.length)
    (hv : row.getD (idx + 1) none = some v) (hne : v ≠ "") :
    nextTruthy row idx = true ∧ nextVal row idx = v := by
  constructor
  · simp only [nextTruthy, Bool.and_eq_true, decide_eq_true_eq]
    refine ⟨hl, ?_⟩
    rw [hv]
    simp [truthy, isEmpty_false_of_ne hne]
  · simp only [nextVal]
    rw [hv]
    rfl

/-- Claim C10: for each of `weather_condition` (`"Wetterlage:"`), `snow_type`
(`"Schneeart:"`) and `last_snowfall` (`"letzter Schneefall:"`): when the cell
contains the marker exactly once, ending right at it (its split on the marker is
`[p, ""]`), and the next cell of the row is absent or empty, the Cell Field
Extractor sets the field to the empty string `""` rather than leaving it at
`"Unknown"`. -/
theorem after_marker_empty :
    (∀ cell p idx row data, pySplit cell "Wetterlage:" = [p, ""] → nextTruthy row idx = false →
       dGet (extract_from_cell cell idx row data) "weather_condition" = some "") ∧
    (∀ cell p idx row data, pySplit cell "Schneeart:" = [p, ""] → nextTruthy row idx = false →
       dGet (extract_from_cell cell idx row data) "snow_type" = some "") ∧
    (∀ cell p idx row data, pySplit cell "letzter Schneefall:" = [p, ""] → nextTruthy row idx = false →
       dGet (extract_from_cell cell idx row data) "last_snowfall" = some "") := by
  refine ⟨?_, ?_, ?_⟩
  · intro cell p idx row data hs hnt
    have hpc : pyContains cell "Wetterlage:" = true := by
      unfold pyContains
      rw [hs]
      simp
    have hwb : ∀ D : Dict, dGet (wetterlageBlock cell idx row D) "weather_condition" = some "" := by
      intro D
      simp [wetterlageBlock, hpc, hnt, hs, dGet_dSet_self, pyStrip]
    simp only [extract_from_cell]
    rw [schneefallBlock_dGet _ _ _ _ (by decide), schneeartBlock_dGet _ _ _ _ (by decide),
      schneehoeheBlock_dGet _ _ _ _ (by decide)]
    exact hwb _
  · intro cell p idx row data hs hnt
    have hpc : pyContains cell "Schneeart:" = true := by
      unfold pyContains
      rw [hs]
      simp
    have hsb : ∀ D : Dict, dGet (schneeartBlock cell idx row D) "snow_type" = some "" := by
      intro D
      simp [schneeartBlock, hpc, hnt, hs, dGet_dSet_self, pyStrip]
    simp only [extract_from_cell]
    rw [schneefallBlock_dGet _ _ _ _ (by decide)]
    exact hsb _
  · intro cell p idx row data hs hnt
    have hpc : pyContains cell "letzter Schneefall:" = true := by
      unfold pyContains
      rw [hs]
      simp
    simp only [extract_from_cell]
    simp [schneefallBlock, hpc, hnt, hs, dGet_dSet_self, pyStrip]

end Skiwetter

namespace Skiwetter

theorem bindOk {α β : Type} (a : α) (f : α → Except String β) :
    (Except.ok a >>= f) = f a := rfl

theorem pureBind {α β : Type} (a : α) (f : α → Except String β) :
    ((pure a : Except String α) >>= f) = f a := rfl

theorem listGetE_eq {α : Type} (l : List α) (i : Nat) (d : α) (h : i < l.length) :
    listGetE l i = Except.ok (l.getD i d) := by
  simp only [listGetE]
  rw [dif_pos h, List.getD_eq_get l d h]

theorem dGetE_eq {d : Dict} {k v : String} (h : dGet d k = some v) :
    dGetE d k = Except.ok v := by
  simp only [dGet] at h
  simp only [dGetE]
  cases hf : d.find? (fun p => p.1 == k) with
  | none => rw [hf] at h; simp at h
  | some p =>
    rw [hf] at h
    simp only [Option.map_some'] at h
    rw [Option.some_inj] at h
    exact h ▸ rfl

theorem pyContains_parts {s sub : String} (h0 : sub.isEmpty = false)
    (h : pyContains s sub = true) : 1 < (pySplit s sub).length := by
  simp only [pyContains, h0, Bool.false_or, decide_eq_true_eq] at h
  exact h

theorem tempLinesLoopE_eq (l : List String) (d : Dict) :
    tempLinesLoopE l d = Except.ok (tempLinesLoop l d) := by
  simp only [tempLinesLoopE, tempLinesLoop]
  refine foldlM_eq_ok _ _ _ _ ?_
  intro x b
  dsimp only
  by_cases hg : (pyContains b.2 "Temperatur" && decide (b.1 + 1 < l.length)) = true
  · have hlt : b.1 + 1 < l.length := by
      simp only [Bool.and_eq_true, decide_eq_true_eq] at hg
      exact hg.2
    rw [if_pos hg, if_pos hg, listGetE_eq l (b.1 + 1) "" hlt, bindOk]
    rfl
  · rw [if_neg hg, if_neg hg]
    rfl

theorem tempBlockE_eq (cell : String) (idx : Nat) (row : Row) (d : Dict)
    (hk : "temperature" ∈ d.map Prod.fst) :
    tempBlockE cell idx row d = Except.ok (tempBlock cell idx row d) := by
  simp only [tempBlockE, tempBlock]
  by_cases hc : pyContains cell "Temperatur" = true
  · rw [if_pos hc, if_pos hc]
    have hA : (if nextTruthy row idx then do
          let v ← listGetE row (idx + 1)
          let val ← assertSome v
          pure (if pyContains val "°C" then dSet d "temperature" (pyStrip val) else d)
        else pure d)
        = Except.ok (if nextTruthy row idx then
            if pyContains (nextVal row idx) "°C" then dSet d "temperature" (pyStrip (nextVal row idx))
            else d
          else d) := by
      by_cases hnt : nextTruthy row idx = true
      · rw [if_pos hnt, if_pos hnt]
        obtain ⟨hsome, -⟩ := nextTruthy_some hnt
        rw [listGetE_eq row (idx + 1) none (nextTruthy_len hnt), bindOk, hsome]
        rfl
      · rw [if_neg hnt, if_neg hnt]
        rfl
    rw [hA, bindOk]
    have hkA : "temperature" ∈ (if nextTruthy row idx then
            if pyContains (nextVal row idx) "°C" then dSet d "temperature" (pyStrip (nextVal row idx))
            else d
          else d).map Prod.fst := by
      split
      · split
        · exact mem_keys_dSet hk _
        · exact hk
      · exact hk
    obtain ⟨w, hw⟩ := dGet_of_mem_keys hkA
    rw [dGetE_eq hw, bindOk, hw]
    have hopt : ((some w : Option String) == some "Unknown") = (w == "Unknown") := rfl
    rw [hopt]
    by_cases hwU : (w == "Unknown") = true
    · rw [if_pos hwU, if_pos hwU]
      exact tempLinesLoopE_eq _ _
    · rw [if_neg hwU, if_neg hwU]
      rfl
  · rw [if_neg hc, if_neg hc]
    rfl

theorem uhrzeitBlockE_eq (cell : String) (idx : Nat) (row : Row) (d : Dict) :
    uhrzeitBlockE cell idx row d = Except.ok (uhrzeitBlock cell idx row d) := by
  simp only [uhrzeitBlockE, uhrzeitBlock]
  by_cases hc : pyContains cell "Uhrzeit:" = true
  · rw [if_pos hc, if_pos hc, if_pos hc]
    have hlt : 1 < (pySplit cell "Uhrzeit:").length := pyContains_parts (by decide) hc
    rw [listGetE_eq (pySplit cell "Uhrzeit:") 1 "" hlt, bindOk, pureBind]
    by_cases hu : pyContains ((pySplit cell "Uhrzeit:").getD 1 "") "Uhr" = true
    · rw [if_pos hu, if_pos (show (pyContains cell "Uhrzeit:" &&
          pyContains ((pySplit cell "Uhrzeit:").getD 1 "") "Uhr") = true by rw [hc, hu]; rfl)]
      rfl
    · rw [if_neg hu, if_neg (show ¬ ((pyContains cell "Uhrzeit:" &&
          pyContains ((pySplit cell "Uhrzeit:").getD 1 "") "Uhr") = true) by
            simp only [Bool.and_eq_true]
            intro hcontra
            exact hu hcontra.2)]
      by_cases hnt : nextTruthy row idx = true
      · rw [if_pos hnt, if_pos hnt]
        obtain ⟨hsome, -⟩ := nextTruthy_some hnt
        rw [listGetE_eq row (idx + 1) none (nextTruthy_len hnt), bindOk, hsome]
        rfl
      · rw [if_neg hnt, if_neg hnt]
        rfl
  · rw [if_neg hc, if_neg hc]
    rfl

theorem wetterlageBlockE_eq (cell : String) (idx : Nat) (row : Row) (d : Dict) :
    wetterlageBlockE cell idx row d = Except.ok (wetterlageBlock cell idx row d) := by
  simp only [wetterlageBlockE, wetterlageBlock]
  by_cases hc : pyContains cell "Wetterlage:" = true
  · rw [if_pos hc, if_pos hc]
    by_cases hnt : nextTruthy row idx = true
    · rw [if_pos hnt, if_pos hnt]
      obtain ⟨hsome, -⟩ := nextTruthy_some hnt
      rw [listGetE_eq row (idx + 1) none (nextTruthy_len hnt), bindOk, hsome]
      rfl
    · rw [if_neg hnt, if_neg hnt]
      by_cases hp : 1 < (pySplit cell "Wetterlage:").length
      · rw [if_pos hp, if_pos hp, listGetE_eq (pySplit cell "Wetterlage:") 1 "" hp, bindOk]
        rfl
      · rw [if_neg hp, if_neg hp]
        rfl
  · rw [if_neg hc, if_neg hc]
    rfl

theorem schneehoeheLinesLoopE_eq (l : List String) (d : Dict) :
    schneehoeheLinesLoopE l d = Except.ok (schneehoeheLinesLoop l d) := by
  simp only [schneehoeheLinesLoopE, schneehoeheLinesLoop]
  refine foldlM_eq_ok _ _ _ _ ?_
  intro x b
  dsimp only
  by_cases hg : (pyContains b.2 "durchschnittliche Schneehöhe" && decide (b.1 + 1 < l.length)) = true
  · have hlt : b.1 + 1 < l.length := by
      simp only [Bool.and_eq_true, decide_eq_true_eq] at hg
      exact hg.2
    rw [if_pos hg, if_pos hg, listGetE_eq l (b.1 + 1) "" hlt, bindOk]
    rfl
  · rw [if_neg hg, if_neg hg]
    rfl

theorem schneehoeheBlockE_eq (cell : String) (idx : Nat) (row : Row) (d : Dict) :
    schneehoeheBlockE cell idx row d = Except.ok (schneehoeheBlock cell idx row d) := by
  simp only [schneehoeheBlockE, schneehoeheBlock]
  by_cases hc : pyContains cell "durchschnittliche Schneehöhe" = true
  · rw [if_pos hc, if_pos hc]
    by_cases hnt : nextTruthy row idx = true
    · rw [if_pos hnt, if_pos hnt]
      obtain ⟨hsome, -⟩ := nextTruthy_some hnt
      rw [listGetE_eq row (idx + 1) none (nextTruthy_len hnt), bindOk, hsome]
      rfl
    · rw [if_neg hnt, if_neg hnt]
      exact schneehoeheLinesLoopE_eq _ _
  · rw [if_neg hc, if_neg hc]
    rfl

theorem schneeartBlockE_eq (cell : String) (idx : Nat) (row : Row) (d : Dict) :
    schneeartBlockE cell idx row d = Except.ok (schneeartBlock cell idx row d) := by
  simp only [schneeartBlockE, schneeartBlock]
  by_cases hc : pyContains cell "Schneeart:" = true
  · rw [if_pos hc, if_pos hc]
    by_cases hnt : nextTruthy row idx = true
    · rw [if_pos hnt, if_pos hnt]
      obtain ⟨hsome, -⟩ := nextTruthy_some hnt
      rw [listGetE_eq row (idx + 1) none (nextTruthy_len hnt), bindOk, hsome]
      rfl
    · rw [if_neg hnt, if_neg hnt]
      by_cases hp : 1 < (pySplit cell "Schneeart:").length
      · rw [if_pos hp, if_pos hp, listGetE_eq (pySplit cell "Schneeart:") 1 "" hp, bindOk]
        rfl
      · rw [if_neg hp, if_neg hp]
        rfl
  · rw [if_neg hc, if_neg hc]
    rfl

theorem schneefallBlockE_eq (cell : String) (idx : Nat) (row : Row) (d : Dict) :
    schneefallBlockE cell idx row d = Except.ok (schneefallBlock cell idx row d) := by
  simp only [schneefallBlockE, schneefallBlock]
  by_cases hc : pyContains cell "letzter Schneefall:" = true
  · rw [if_pos hc, if_pos hc]
    by_cases hnt : nextTruthy row idx = true
    · rw [if_pos hnt, if_pos hnt]
      obtain ⟨hsome, -⟩ := nextTruthy_some hnt
      rw [listGetE_eq row (idx + 1) none (nextTruthy_len hnt), bindOk, hsome]
      rfl
    · rw [if_neg hnt, if_neg hnt]
      by_cases hp : 1 < (pySplit cell "letzter Schneefall:").length
      · rw [if_pos hp, if_pos hp, listGetE_eq (pySplit cell "letzter Schneefall:") 1 "" hp, bindOk]
        rfl
      · rw [if_neg hp, if_neg hp]
        rfl
  · rw [if_neg hc, if_neg hc]
    rfl

end Skiwetter

namespace Skiwetter

/-- Claim C7 (amended): for every cell text, index, row, and every record that
contains the `"temperature"` key — as every record seeded by the orchestrator
does — the exception-explicit embedding of `_extract_from_cell` raises nothing:
it returns `Except.ok` of exactly what the total embedding computes.  Every
neighbour access is bounds-guarded, the `assert val is not None` checks sit
behind truthiness guards, and the `split(...)[1]` indexings sit behind the
containment tests. -/
theorem extract_from_cell_no_exception (cell : String) (idx : Nat) (row : Row) (data : Dict)
    (h : "temperature" ∈ data.map Prod.fst) :
    extract_from_cellE cell idx row data = Except.ok (extract_from_cell cell idx row data) := by
  have h1 : "temperature" ∈ (dateBlock cell data).map Prod.fst := by
    simp only [dateBlock]
    split
    · exact mem_keys_dSet h _
    · exact h
  simp only [extract_from_cellE, extract_from_cell]
  rw [tempBlockE_eq _ _ _ _ h1, bindOk, uhrzeitBlockE_eq, bindOk, wetterlageBlockE_eq, bindOk,
    schneehoeheBlockE_eq, bindOk, schneeartBlockE_eq, bindOk, schneefallBlockE_eq]

/-- Claim C7, counterexample to the unrestricted statement: on a record without
the `"temperature"` key, the read `data["temperature"]` in the `"Temperatur"`
block raises `KeyError`, so the extractor does not avoid exceptions for *every*
record. -/
theorem extract_from_cellE_keyerror :
    extract_from_cellE "Temperatur" 0 [some "Temperatur"] [] = Except.error "KeyError" := by
  rfl

/-- Claim C7 witness: the amended no-exception theorem applied to a concrete
cell, row and the seeded record. -/
theorem extract_from_cell_no_exception_witness :
    extract_from_cellE "Temperatur" 0 [some "Temperatur", some "-5°C"] initData =
      Except.ok (extract_from_cell "Temperatur" 0 [some "Temperatur", some "-5°C"] initData) :=
  extract_from_cell_no_exception "Temperatur" 0 [some "Temperatur", some "-5°C"] initData
    (by decide)

/-- Claim C1: contrary to the claim, the `"TAGES-NEWS"` block performs no date
parsing at all — `"TAGES-NEWS - 01.02.2030"` stores `"01.02.2030"` (never the
ISO form `"2030-02-01"`), and the unparsable `"TAGES-NEWS - not-a-date"` stores
`"not-a-date"` instead of keeping `"Unknown"`.  This contradicts the repository's
own test `test_extract_weather_data_success`. -/
theorem date_field_kept_verbatim :
    dGet (extract_from_cell "TAGES-NEWS - 01.02.2030" 0 [some "TAGES-NEWS - 01.02.2030"] initData)
      "date" = some "01.02.2030" ∧
    dGet (extract_from_cell "TAGES-NEWS - not-a-date" 0 [some "TAGES-NEWS - not-a-date"] initData)
      "date" = some "not-a-date" ∧
    ("01.02.2030" : String) ≠ "2030-02-01" := by
  refine ⟨by decide, by decide, by decide⟩

/-- Claim C2: contrary to the claim, on the HTML of the repository's own test
`test_fetch_pdf_url_handles_dynamic_link_text` (a non-dated `"Tages-News"` anchor
followed by a dated one) the Link Locator returns the *static* anchor's URL,
because the first matching rule accepts any `"Tages-News"` anchor whose href
carries a download marker, digits or not. -/
theorem fetch_pdf_url_returns_static_link :
    fetch_pdf_url
      [⟨"Tages-News Statischer Link für Leistungsträger", "/r/91329422?page=media/download"⟩,
       ⟨"Tages-News 24.11.2025", "/r/622108495?page=media%2Fdownload"⟩] =
      some "https://www.altenberg.de/r/91329422?page=media/download" ∧
    ("https://www.altenberg.de/r/91329422?page=media/download" : String) ≠
      "https://www.altenberg.de/r/622108495?page=media%2Fdownload" := by
  refine ⟨by decide, by decide⟩

/-- Claim C3: contrary to the claim, `save_data` writes the record verbatim —
it adds no `last_updated` field and leaves a stale one untouched, contradicting
the repository's own test `test_save_data`. -/
theorem save_data_adds_no_timestamp :
    save_data [("test", "data"), ("last_updated", "old_timestamp")] =
      [("test", "data"), ("last_updated", "old_timestamp")] ∧
    dGet (save_data initData) "last_updated" = none := by
  refine ⟨rfl, by decide⟩

/-- Claim C4: on the spec's single-table cell stream the orchestrator returns
the claimed record in every field except `date`, which is the prefix-stripped
`"22.11.2025"` rather than the claimed ISO-normalized `"2025-11-22"` —
contradicting the repository's own test `test_extract_weather_data_success`. -/
theorem extract_example_record :
    extract_weather_data
      ⟨[[[[some "TAGES-NEWS - 22.11.2025"], [some "Temperatur", some "-5°C"],
          [some "Wetterlage:", some "sonnig"], [some "Schneeart:", some "Pulver"],
          [some "durchschnittliche Schneehöhe", some "20 cm"],
          [some "letzter Schneefall:", some "20.11.2025"], [some "Uhrzeit: 08:00Uhr"]]]]⟩ =
      some [("date", "22.11.2025"), ("temperature", "-5°C"), ("weather_condition", "sonnig"),
        ("snow_depth", "20 cm"), ("snow_type", "Pulver"), ("last_snowfall", "20.11.2025"),
        ("update_time", "08:00Uhr")] ∧
    ("22.11.2025" : String) ≠ "2025-11-22" := by
  refine ⟨by decide, by decide⟩

/-- Claim C5, counterexample: when the weather-data file does not exist,
`GET /api/data` answers with status 200, not the claimed 404. -/
theorem get_data_missing_file_status_200 :
    (get_data ⟨false, true, []⟩).status_code = 200 ∧
    (get_data ⟨false, true, []⟩).status_code ≠ 404 := by
  refine ⟨by decide, by decide⟩

/-- Claim C5 (amended): whenever the weather-data file does not exist, the
endpoint responds with HTTP 200 and the error-shaped body — the 404 branch is
unreachable for this case because the file-missing message itself contains the
word `"scraper"`, which the handler's condition excludes. -/
theorem get_data_missing_file_ok (st : FileState) (h : st.fileExists = false) :
    (get_data st).status_code = 200 ∧
    (get_data st).content =
      [("error", "Weather data not available yet. Please wait for the scraper to run.")] := by
  have hl : load_weather_data st =
      [("error", "Weather data not available yet. Please wait for the scraper to run.")] := by
    simp [load_weather_data, h]
  have hcond : ¬ (((dGet
      [("error", "Weather data not available yet. Please wait for the scraper to run.")]
        "error").isSome &&
      !(pyContains ((dGet
        [("error", "Weather data not available yet. Please wait for the scraper to run.")]
          "error").getD "") "scraper")) = true) := by decide
  simp only [get_data, hl]
  rw [if_neg hcond]
  exact ⟨rfl, rfl⟩

/-- Claim C5 witness: the amended theorem applied to the concrete missing-file
state. -/
theorem get_data_missing_file_ok_witness :
    (get_data ⟨false, true, []⟩).status_code = 200 ∧
    (get_data ⟨false, true, []⟩).content =
      [("error", "Weather data not available yet. Please wait for the scraper to run.")] :=
  get_data_missing_file_ok ⟨false, true, []⟩ rfl

/-- Claim C6 witness: the keys invariant applied to a concrete one-page
document with no tables. -/
theorem extract_weather_data_keys_witness :
    ∃ d, extract_weather_data ⟨[[]]⟩ = some d ∧ d.map Prod.fst = weatherKeys ∧
      ((∀ t ∈ ([] : List Table), t = ([] : Table)) → d = initData) :=
  extract_weather_data_keys ⟨[[]]⟩ [] [] rfl

/-- Claim C8, counterexample: after an earlier cell set the temperature to
`"-5°C"`, a later cell matching `"Temperatur"` whose `"°C"` value sits on the
next line of the same cell does *not* overwrite it, because that fallback only
runs while the field reads `"Unknown"`. -/
theorem temp_line_fallback_keeps_old :
    extract_weather_data
      ⟨[[[[some "Temperatur", some "-5°C"], [some "Temperatur\n-7°C"]]]]⟩ =
      some [("date", "Unknown"), ("temperature", "-5°C"), ("weather_condition", "Unknown"),
        ("snow_depth", "Unknown"), ("snow_type", "Unknown"), ("last_snowfall", "Unknown"),
        ("update_time", "Unknown")] ∧
    ("-5°C" : String) ≠ "-7°C" := by
  refine ⟨by decide, by decide⟩

/-- Claim C8 (amended): last-match-wins holds for every field of the record
through the unconditional assignment paths — the prefix-strip rule of `date`,
the same-line rule of `update_time`, the next-cell rule (with the `"°C"`
requirement for temperature) of `temperature`, `weather_condition`,
`snow_depth`, `snow_type` and `last_snowfall`, and the after-marker rule of
`weather_condition`, `snow_type` and `last_snowfall`: a later matching cell
overwrites whatever the field held before.  The sole exception is temperature's
same-cell next-line fallback, which runs only while the field still reads
`"Unknown"` and therefore never overwrites an already-set value (third
conjunct, proved for every record and cell). -/
theorem last_match_wins :
    (∀ cell idx row data, pyContains cell "TAGES-NEWS" = true →
       dGet (extract_from_cell cell idx row data) "date" =
         some (pyStrip (pyReplace cell "TAGES-NEWS - " ""))) ∧
    (∀ cell v idx row data, pyContains cell "Temperatur" = true → idx + 1 < row.length →
       row.getD (idx + 1) none = some v → v ≠ "" → pyContains v "°C" = true →
       pyStrip v ≠ "Unknown" →
       dGet (extract_from_cell cell idx row data) "temperature" = some (pyStrip v)) ∧
    (∀ cell idx row data t, dGet data "temperature" = some t → t ≠ "Unknown" →
       nextTruthy row idx = false ∨ pyContains (nextVal row idx) "°C" = false →
       dGet (extract_from_cell cell idx row data) "temperature" = some t) ∧
    (∀ cell idx row data, pyContains cell "Uhrzeit:" = true →
       pyContains ((pySplit cell "Uhrzeit:").getD 1 "") "Uhr" = true →
       dGet (extract_from_cell cell idx row data) "update_time" =
         some (pyStrip ((pySplit cell "Uhrzeit:").getD 1 ""))) ∧
    (∀ cell v idx row data, pyContains cell "Wetterlage:" = true → idx + 1 < row.length →
       row.getD (idx + 1) none = some v → v ≠ "" →
       dGet (extract_from_cell cell idx row data) "weather_condition" = some (pyStrip v)) ∧
    (∀ cell idx row data, pyContains cell "Wetterlage:" = true → nextTruthy row idx = false →
       dGet (extract_from_cell cell idx row data) "weather_condition" =
         some (pyStrip ((pySplit cell "Wetterlage:").getD 1 ""))) ∧
    (∀ cell v idx row data, pyContains cell "durchschnittliche Schneehöhe" = true →
       idx + 1 < row.length → row.getD (idx + 1) none = some v → v ≠ "" →
       dGet (extract_from_cell cell idx row data) "snow_depth" = some (pyStrip v)) ∧
    (∀ cell v idx row data, pyContains cell "Schneeart:" = true → idx + 1 < row.length →
       row.getD (idx + 1) none = some v → v ≠ "" →
       dGet (extract_from_cell cell idx row data) "snow_type" = some (pyStrip v)) ∧
    (∀ cell idx row data, pyContains cell "Schneeart:" = true → nextTruthy row idx = false →
       dGet (extract_from_cell cell idx row data) "snow_type" =
         some (pyStrip ((pySplit cell "Schneeart:").getD 1 ""))) ∧
    (∀ cell v idx row data, pyContains cell "letzter Schneefall:" = true →
       idx + 1 < row.length → row.getD (idx + 1) none = some v → v ≠ "" →
       dGet (extract_from_cell cell idx row data) "last_snowfall" = some (pyStrip v)) ∧
    (∀ cell idx row data, pyContains cell "letzter Schneefall:" = true →
       nextTruthy row idx = false →
       dGet (extract_from_cell cell idx row data) "last_snowfall" =
         some (pyStrip ((pySplit cell "letzter Schneefall:").getD 1 ""))) := by
  refine ⟨?_, ?_, ?_, ?_, ?_, ?_, ?_, ?_, ?_, ?_, ?_⟩
  · intro cell idx row data hc
    have hdb : ∀ D : Dict, dGet (dateBlock cell D) "date" =
        some (pyStrip (pyReplace cell "TAGES-NEWS - " "")) := by
      intro D
      simp only [dateBlock]
      rw [if_pos hc]
      exact dGet_dSet_self _ _ _
    simp only [extract_from_cell]
    rw [schneefallBlock_dGet _ _ _ _ (by decide), schneeartBlock_dGet _ _ _ _ (by decide),
      schneehoeheBlock_dGet _ _ _ _ (by decide), wetterlageBlock_dGet _ _ _ _ (by decide),
      uhrzeitBlock_dGet _ _ _ _ (by decide), tempBlock_dGet _ _ _ _ (by decide)]
    exact hdb _
  · intro cell v idx row data hc hl hv hne hdeg hun
    obtain ⟨hNT, hval⟩ := nextTruthy_of_getD hl hv hne
    have htb : ∀ D : Dict, dGet (tempBlock cell idx row D) "temperature" =
        some (pyStrip v) := by
      intro D
      have hfalse : ((some (pyStrip v) : Option String) == some "Unknown") = false := by
        simp [hun]
      simp [tempBlock, hc, hNT, hval, hdeg, hfalse, hun, dGet_dSet_self]
    simp only [extract_from_cell]
    rw [schneefallBlock_dGet _ _ _ _ (by decide), schneeartBlock_dGet _ _ _ _ (by decide),
      schneehoeheBlock_dGet _ _ _ _ (by decide), wetterlageBlock_dGet _ _ _ _ (by decide),
      uhrzeitBlock_dGet _ _ _ _ (by decide)]
    exact htb _
  · intro cell idx row data t ht htU hor
    have hD : dGet (dateBlock cell data) "temperature" = some t := by
      rw [dateBlock_dGet _ _ (by decide)]
      exact ht
    have htb : dGet (tempBlock cell idx row (dateBlock cell data)) "temperature" = some t := by
      simp only [tempBlock]
      split
      · have hA : (if nextTruthy row idx then
            if pyContains (nextVal row idx) "°C" then
              dSet (dateBlock cell data) "temperature" (pyStrip (nextVal row idx))
            else dateBlock cell data
          else dateBlock cell data) = dateBlock cell data := by
          rcases hor with hnt | hdeg
          · rw [if_neg (by simp [hnt])]
          · split
            · rw [if_neg (by simp [hdeg])]
            · rfl
        rw [hA, hD]
        have hfalse : ((some t : Option String) == some "Unknown") = false := by simp [htU]
        rw [hfalse]
        simp only [Bool.false_eq_true, if_false]
        exact hD
      · exact hD
    simp only [extract_from_cell]
    rw [schneefallBlock_dGet _ _ _ _ (by decide), schneeartBlock_dGet _ _ _ _ (by decide),
      schneehoeheBlock_dGet _ _ _ _ (by decide), wetterlageBlock_dGet _ _ _ _ (by decide),
      uhrzeitBlock_dGet _ _ _ _ (by decide)]
    exact htb
  · intro cell idx row data hc hu
    have hub : ∀ D : Dict, dGet (uhrzeitBlock cell idx row D) "update_time" =
        some (pyStrip ((pySplit cell "Uhrzeit:").getD 1 "")) := by
      intro D
      simp only [uhrzeitBlock]
      rw [if_pos hc, if_pos (show (pyContains cell "Uhrzeit:" &&
        pyContains ((pySplit cell "Uhrzeit:").getD 1 "") "Uhr") = true by rw [hc, hu]; rfl)]
      exact dGet_dSet_self _ _ _
    simp only [extract_from_cell]
    rw [schneefallBlock_dGet _ _ _ _ (by decide), schneeartBlock_dGet _ _ _ _ (by decide),
      schneehoeheBlock_dGet _ _ _ _ (by decide), wetterlageBlock_dGet _ _ _ _ (by decide)]
    exact hub _
  · intro cell v idx row data hc hl hv hne
    obtain ⟨hNT, hval⟩ := nextTruthy_of_getD hl hv hne
    have hwb : ∀ D : Dict, dGet (wetterlageBlock cell idx row D) "weather_condition" =
        some (pyStrip v) := by
      intro D
      simp only [wetterlageBlock]
      rw [if_pos hc, if_pos hNT, hval]
      exact dGet_dSet_self _ _ _
    simp only [extract_from_cell]
    rw [schneefallBlock_dGet _ _ _ _ (by decide), schneeartBlock_dGet _ _ _ _ (by decide),
      schneehoeheBlock_dGet _ _ _ _ (by decide)]
    exact hwb _
  · intro cell idx row data hc hnt
    have hwb : ∀ D : Dict, dGet (wetterlageBlock cell idx row D) "weather_condition" =
        some (pyStrip ((pySplit cell "Wetterlage:").getD 1 "")) := by
      intro D
      simp only [wetterlageBlock]
      rw [if_pos hc, if_neg (by simp [hnt]), if_pos (pyContains_parts (by decide) hc)]
      exact dGet_dSet_self _ _ _
    simp only [extract_from_cell]
    rw [schneefallBlock_dGet _ _ _ _ (by decide), schneeartBlock_dGet _ _ _ _ (by decide),
      schneehoeheBlock_dGet _ _ _ _ (by decide)]
    exact hwb _
  · intro cell v idx row data hc hl hv hne
    obtain ⟨hNT, hval⟩ := nextTruthy_of_getD hl hv hne
    have hsb : ∀ D : Dict, dGet (schneehoeheBlock cell idx row D) "snow_depth" =
        some (pyStrip v) := by
      intro D
      simp only [schneehoeheBlock]
      rw [if_pos hc, if_pos hNT, hval]
      exact dGet_dSet_self _ _ _
    simp only [extract_from_cell]
    rw [schneefallBlock_dGet _ _ _ _ (by decide), schneeartBlock_dGet _ _ _ _ (by decide)]
    exact hsb _
  · intro cell v idx row data hc hl hv hne
    obtain ⟨hNT, hval⟩ := nextTruthy_of_getD hl hv hne
    have hsb : ∀ D : Dict, dGet (schneeartBlock cell idx row D) "snow_type" =
        some (pyStrip v) := by
      intro D
      simp only [schneeartBlock]
      rw [if_pos hc, if_pos hNT, hval]
      exact dGet_dSet_self _ _ _
    simp only [extract_from_cell]
    rw [schneefallBlock_dGet _ _ _ _ (by decide)]
    exact hsb _
  · intro cell idx row data hc hnt
    have hsb : ∀ D : Dict, dGet (schneeartBlock cell idx row D) "snow_type" =
        some (pyStrip ((pySplit cell "Schneeart:").getD 1 "")) := by
      intro D
      simp only [schneeartBlock]
      rw [if_pos hc, if_neg (by simp [hnt]), if_pos (pyContains_parts (by decide) hc)]
      exact dGet_dSet_self _ _ _
    simp only [extract_from_cell]
    rw [schneefallBlock_dGet _ _ _ _ (by decide)]
    exact hsb _
  · intro cell v idx row data hc hl hv hne
    obtain ⟨hNT, hval⟩ := nextTruthy_of_getD hl hv hne
    have hsb : ∀ D : Dict, dGet (schneefallBlock cell idx row D) "last_snowfall" =
        some (pyStrip v) := by
      intro D
      simp only [schneefallBlock]
      rw [if_pos hc, if_pos hNT, hval]
      exact dGet_dSet_self _ _ _
    simp only [extract_from_cell]
    exact hsb _
  · intro cell idx row data hc hnt
    have hsb : ∀ D : Dict, dGet (schneefallBlock cell idx row D) "last_snowfall" =
        some (pyStrip ((pySplit cell "letzter Schneefall:").getD 1 "")) := by
      intro D
      simp only [schneefallBlock]
      rw [if_pos hc, if_neg (by simp [hnt]), if_pos (pyContains_parts (by decide) hc)]
      exact dGet_dSet_self _ _ _
    simp only [extract_from_cell]
    exact hsb _

/-- Claim C8 witness: the temperature next-cell overwrite, the never-overwriting
line fallback, the weather-condition next-cell overwrite and the update-time
same-line overwrite, each applied to a concrete row whose record already holds
an earlier value. -/
theorem last_match_wins_witness :
    dGet (extract_from_cell "Temperatur" 0 [some "Temperatur", some "-7°C"]
      (dSet initData "temperature" "-5°C")) "temperature" = some (pyStrip "-7°C") ∧
    dGet (extract_from_cell "Temperatur\n-7°C" 0 [some "Temperatur\n-7°C"]
      (dSet initData "temperature" "-5°C")) "temperature" = some "-5°C" ∧
    dGet (extract_from_cell "Wetterlage:" 0 [some "Wetterlage:", some "bewölkt"]
      (dSet initData "weather_condition" "sonnig")) "weather_condition" =
      some (pyStrip "bewölkt") ∧
    dGet (extract_from_cell "Uhrzeit: 09:00Uhr" 0 [some "Uhrzeit: 09:00Uhr"]
      (dSet initData "update_time" "08:00Uhr")) "update_time" =
      some (pyStrip ((pySplit "Uhrzeit: 09:00Uhr" "Uhrzeit:").getD 1 "")) := by
  obtain ⟨h1, h2, h3, h4, h5, h6, h7, h8, h9, h10, h11⟩ := last_match_wins
  exact ⟨h2 "Temperatur" "-7°C" 0 [some "Temperatur", some "-7°C"]
      (dSet initData "temperature" "-5°C") (by decide) (by decide) (by decide) (by decide)
      (by decide) (by decide),
    h3 "Temperatur\n-7°C" 0 [some "Temperatur\n-7°C"] (dSet initData "temperature" "-5°C")
      "-5°C" (by decide) (by decide) (Or.inl (by decide)),
    h5 "Wetterlage:" "bewölkt" 0 [some "Wetterlage:", some "bewölkt"]
      (dSet initData "weather_condition" "sonnig") (by decide) (by decide) (by decide)
      (by decide),
    h4 "Uhrzeit: 09:00Uhr" 0 [some "Uhrzeit: 09:00Uhr"] (dSet initData "update_time" "08:00Uhr")
      (by decide) (by decide)⟩

/-- Claim C9: contrary to the claim, with exactly one dated relative-href
`"Tages-News"` anchor present, the Link Locator can still return a different
URL — a preceding non-dated `"Tages-News"` anchor whose href contains `"r/"`
matches the first rule, against the intent of the repository's tests
`test_fetch_pdf_url_no_date_in_link` and
`test_fetch_pdf_url_handles_dynamic_link_text`. -/
theorem static_first_beats_relative_dated :
    fetch_pdf_url [⟨"Tages-News Statisch", "/r/static-page"⟩, ⟨"Tages-News 1", "/x"⟩] =
      some "https://www.altenberg.de/r/static-page" ∧
    ("https://www.altenberg.de/r/static-page" : String) ≠ BASE_URL ++ "/x" := by
  refine ⟨by decide, by decide⟩

/-- Claim C10 witness: the three empty-after-marker statements applied to
concrete one-cell rows. -/
theorem after_marker_empty_witness :
    dGet (extract_from_cell "Wetterlage:" 0 [some "Wetterlage:"] initData)
      "weather_condition" = some "" ∧
    dGet (extract_from_cell "Schneeart:" 0 [some "Schneeart:"] initData)
      "snow_type" = some "" ∧
    dGet (extract_from_cell "letzter Schneefall:" 0 [some "letzter Schneefall:"] initData)
      "last_snowfall" = some "" :=
  ⟨after_marker_empty.1 "Wetterlage:" "" 0 [some "Wetterlage:"] initData (by decide) (by decide),
   after_marker_empty.2.1 "Schneeart:" "" 0 [some "Schneeart:"] initData (by decide) (by decide),
   after_marker_empty.2.2 "letzter Schneefall:" "" 0 [some "letzter Schneefall:"] initData
     (by decide) (by decide)⟩

end Skiwetter
